import Mathlib

/-!
Verification of the context-budgeting, evidence-selection and report
orchestration core of the JusReport service (`app/api/main.py`).

Python strings are modelled as `List Char` (a Python `str` is a sequence of
code points).  Python's clamping slice semantics (`s[a:b]`, `s[:k]`,
`s[-k:]`) are reproduced with `List.take` / `List.drop`, whose `Nat`
subtraction already clamps at zero exactly where the source applies
`max(0, ...)`.  Effectful boundaries (pdfplumber page reading, the Gemini
client) are parameters: page texts and per-page tables arrive as pure data,
and the model is an `Option` of a call function returning `Except` (raising
`generate_content` = `Except.error`).
-/

namespace JusReport

/-- Python `str.strip()` whitespace set restricted to its ASCII members
(the characters that occur in the texts the service builds). -/
def pyWhitespace (c : Char) : Bool :=
  c = ' ' || c = '\t' || c = '\n' || c = '\r' || c = '\x0b' || c = '\x0c'

/-- Python `str.strip()`: drop leading and trailing whitespace. -/
def pyStrip (s : List Char) : List Char :=
  ((s.dropWhile pyWhitespace).reverse.dropWhile pyWhitespace).reverse

/-- Python `str.lower()` on one code point, for the ASCII range and the
Latin-1 uppercase letters (covers the Portuguese text the service handles). -/
def pyLowerChar (c : Char) : Char :=
  if 'A' ≤ c && c ≤ 'Z' then Char.ofNat (c.toNat + 32)
  else if 0xC0 ≤ c.toNat && c.toNat ≤ 0xDE && c.toNat ≠ 0xD7 then Char.ofNat (c.toNat + 32)
  else c

/-- Python `str.lower()`. -/
def pyLower (s : List Char) : List Char := s.map pyLowerChar

/-- Python substring test `needle in hay`. -/
def containsSub (needle hay : List Char) : Bool := decide (needle <:+: hay)

/-- `main.py` lines 240-250 and 338-348: the keyword list (the source
repeats the same literal list in `_extract_text_from_pdf` and
`_detect_planilha_pages`). -/
def planilhaKeywords : List (List Char) :=
  [ "planilha".data, "demonstrativo".data, "cálculo".data, "calculo".data,
    "sisbajud".data, "bacenjud".data, "bloqueio".data,
    "penhora online".data, "penhora on-line".data ]

/-- `any(k in tl for k in keywords)` applied to one page's lowered text. -/
def pageHasKeyword (pageText : List Char) : Bool :=
  planilhaKeywords.any (fun k => containsSub k (pyLower pageText))

/-- `main.py` 333-355, `_detect_planilha_pages` loop body: walk the pages
carrying the 0-based index, collecting `idx + 1` for each keyword page. -/
def detectPlanilhaAux : Nat → List (List Char) → List Nat
  | _, [] => []
  | idx, p :: rest =>
    if pageHasKeyword p then (idx + 1) :: detectPlanilhaAux (idx + 1) rest
    else detectPlanilhaAux (idx + 1) rest

/-- `main.py` 333-355, `_detect_planilha_pages`. -/
def detect_planilha_pages (textByPage : List (List Char)) : List Nat :=
  detectPlanilhaAux 0 textByPage

/-- `main.py` 394: the separator before the central zone. -/
def sepCentral : List Char := "\n\n=== TRECHO CENTRAL DO PROCESSO ===\n\n".data

/-- `main.py` 396: the separator before the pre-final zone. -/
def sepPreFinal : List Char := "\n\n=== TRECHO PRÉ-FINAL DO PROCESSO ===\n\n".data

/-- `main.py` 398: the separator before the final zone. -/
def sepFinal : List Char := "\n\n=== TRECHO FINAL DO PROCESSO ===\n\n".data

/-- `main.py` 358-400, `_build_global_sample`.  `max(0, x - y)` on Python
ints is `Nat` subtraction here; `full_text[-part:]` is the whole string when
`part = 0` (Python `s[-0:] = s[0:]`) and the last `min part totalLen`
characters otherwise. -/
def build_global_sample (fullText : List Char) (maxChars : Nat) : List Char :=
  let totalLen := fullText.length
  if totalLen ≤ maxChars then fullText
  else
    let part0 := maxChars / 4
    let part := if part0 = 0 then maxChars else part0
    let inicio := fullText.take part
    let midCenter := totalLen / 2
    let midStart := midCenter - part / 2
    let midEnd := min totalLen (midStart + part)
    let meio := (fullText.drop midStart).take (midEnd - midStart)
    let preFinalStart0 := totalLen - part * 2
    let preFinalEnd0 := preFinalStart0 + part
    let preFinalStart := if totalLen < preFinalEnd0 then totalLen - part else preFinalStart0
    let preFinalEnd := if totalLen < preFinalEnd0 then totalLen else preFinalEnd0
    let preFinal := (fullText.drop preFinalStart).take (preFinalEnd - preFinalStart)
    let fim := if part = 0 then fullText else fullText.drop (totalLen - part)
    inicio ++ sepCentral ++ meio ++ sepPreFinal ++ preFinal ++ sepFinal ++ fim

/-- One extracted table: rows of optional cells (`None` for an absent cell). -/
abbrev PyTable := List (List (Option (List Char)))

/-- `main.py` 279-282: one table row flattened, `" | ".join(row)` after
replacing `None` cells by `""`, plus the trailing newline. -/
def renderRow (row : List (Option (List Char))) : List Char :=
  (List.intercalate " | ".data (row.map (fun c => c.getD []))) ++ "\n".data

/-- `main.py` 278-283: one table of a hotspot page, with its 1-based index. -/
def renderTable (pageNum tIdx : Nat) (table : PyTable) : List Char :=
  "--- Tabela ".data ++ (toString tIdx).data ++ " (pág. ".data ++ (toString pageNum).data
    ++ ") ---\n".data ++ (table.map renderRow).flatten ++ "\n".data

/-- `main.py` 275-283: the table section of a hotspot block (empty when the
page has no tables). -/
def renderTables (pageNum : Nat) (tables : List PyTable) : List Char :=
  if tables.isEmpty then []
  else
    "\n\n=== CONTEÚDO DA PLANILHA DETECTADA NA PÁGINA ".data ++ (toString pageNum).data
      ++ " ===\n\n".data
      ++ (tables.enum.map (fun it => renderTable pageNum (it.1 + 1) it.2)).flatten

/-- `main.py` 264-285: the labeled block built for one hotspot page. -/
def hotspotBlock (pageNum : Nat) (pageText : List Char) (tables : List PyTable) : List Char :=
  "\n\n=== PÁGINA RELEVANTE ".data ++ (toString pageNum).data
    ++ " (palavras-chave localizadas) ===\n\n".data
    ++ pageText ++ renderTables pageNum tables

/-- `main.py` 255-285: the hotspot loop, returning the blocks and the
1-based relevant page numbers.  A page whose table extraction raised is
modelled by an empty table list at its index (the source's `except` arm). -/
def hotspotAux (tablesByPage : List (List PyTable)) :
    Nat → List (List Char) → List (List Char) × List Nat
  | _, [] => ([], [])
  | idx, p :: rest =>
    let r := hotspotAux tablesByPage (idx + 1) rest
    if pageHasKeyword p then
      (hotspotBlock (idx + 1) p (tablesByPage.getD idx []) :: r.1, (idx + 1) :: r.2)
    else r

/-- `main.py` 206: `"\n\n".join(text_by_page) if text_by_page else ""`. -/
def fullTextOf (textByPage : List (List Char)) : List Char :=
  if textByPage.isEmpty then [] else List.intercalate "\n\n".data textByPage

/-- `main.py` 216: the hard payload cap. -/
def HARD_CAP_CHARS : Nat := 80000

/-- `main.py` 321: the separator between the hotspot text and the global
sample. -/
def sepAmostragem : List Char := "\n\n=== AMOSTRAGEM GLOBAL DO PROCESSO ===\n\n".data

/-- `main.py` 180-330, `_extract_text_from_pdf`, its pure core: the page
texts and per-page tables stand for what pdfplumber read (an unreadable PDF
is the empty page list), `envMax` for `int(os.getenv("MAX_PDF_CHARS",
"30000"))`.  Returns `(final_text, meta["planilha_pages"])`.
`int(max_chars * 0.6)` equals `max_chars * 6 / 10` for every
`max_chars ≤ 80000` (the float product of `0.6` rounds to the exact value
there), so the hotspot reservation is written with exact arithmetic. -/
def extract_text_from_pdf (textByPage : List (List Char))
    (tablesByPage : List (List PyTable)) (envMax : Nat) : List Char × List Nat :=
  let fullText := fullTextOf textByPage
  let totalLen := fullText.length
  if totalLen = 0 then ([], [])
  else
    let maxChars := min envMax HARD_CAP_CHARS
    if totalLen ≤ maxChars then (fullText, detect_planilha_pages textByPage)
    else
      let hp := hotspotAux tablesByPage 0 textByPage
      let hotspotText := pyStrip hp.1.flatten
      if hotspotText = [] then (build_global_sample fullText maxChars, [])
      else
        let maxHotspot := maxChars * 6 / 10
        let hotspotText := if maxHotspot < hotspotText.length
          then hotspotText.take maxHotspot else hotspotText
        if maxChars ≤ hotspotText.length then (hotspotText, hp.2)
        else
          let globalSample := build_global_sample fullText (maxChars - hotspotText.length)
          (hotspotText ++ sepAmostragem ++ globalSample, hp.2)

/-- `main.py` tasks entry `cabecalho`: the instruction template, verbatim. -/
def instr_cabecalho : String := "\nVocê é um assistente jurídico especialista em EXECUÇÃO DE TÍTULO EXTRAJUDICIAL.\n\nSua tarefa NÃO é resumir, mas sim **organizar todas as informações relevantes** que encontrar.\n\nCom base EXCLUSIVAMENTE no texto abaixo, extraia o CABEÇALHO do processo, contendo, de forma\no mais completa possível:\n\n• Número dos autos  \n• Classe da ação  \n• Vara Cível e Comarca responsável (com número da Vara, se houver)  \n• Data da distribuição da ação (se tiver mais de uma, liste todas com contexto)  \n• Exequente (nome completo e, se constar, CNPJ/CPF)  \n• Executados (nomes completos e, se constar, CNPJ/CPF, listados separadamente)  \n• Advogados do Exequente (nome, OAB, UF, listar todos os que aparecerem)  \n• Advogados dos Executados (nome, OAB, UF, listar todos os que aparecerem)  \n• Valor da causa (com data de referência, se constar)  \n• Valor executado/atualizado na inicial (valor + data de referência, se constar)  \n• Operação financeira que originou a ação (ex.: Cédula de Crédito Bancário, confissão de dívida etc.)  \n• Número da operação (se constar)  \n• Valor original da operação de crédito  \n• Datas relevantes da operação (emissão, vencimentos, eventual renegociação)  \n• Garantias oferecidas na operação (penhor, hipoteca, fiança, aval etc.) com breve descrição.\n\nREGRAS ESPECIAIS PARA ADVOGADOS:\n- Sempre identifique quem cada advogado representa:\n  • Se o nome aparece em petição ou assinatura do BANCO / EXEQUENTE, considere como \"Advogado do Exequente\".\n  • Se o nome aparece em petição ou assinatura de EXECUTADO (devedor/avalista), considere como \"Advogado dos Executados\".\n- NUNCA repita o mesmo advogado nas duas listas. Em caso de dúvida, prefira classificá-lo como \"Advogado dos Executados\".\n- Se houver menção a publicação/intimação exclusiva em nome de determinado advogado, mantenha-o na lista correta (Exequente ou Executados).\n\nOutras regras:\n- Varra todo o texto com atenção; liste TUDO que encontrar, mesmo que pareça repetido.\n- Se algum item não aparecer, escreva \"Não informado\".\n- Sempre que houver número de documento ou folha/página (ex.: fls. 573), mencione entre parênteses.\n- Responda em Markdown começando com o título \"## Cabeçalho\" e bullets iniciando com \"• \".\n"

/-- `main.py` tasks entry `resumo_inicial`: the instruction template, verbatim. -/
def instr_resumo_inicial : String := "\nVocê é um assistente jurídico especialista em EXECUÇÃO DE TÍTULO EXTRAJUDICIAL.\n\nSua tarefa aqui é fazer um **resumo rico em detalhes**, não superficial.\n\nCom base EXCLUSIVAMENTE no texto abaixo, elabore o **RESUMO DA PETIÇÃO INICIAL**, contendo:\n\n1. Partes:\n   - Quem está processando quem? (exequente x executados, com nomes completos).\n   - Se houver fiadores/avalistas, mencionar expressamente.\n\n2. Origem da dívida:\n   - Tipo de contrato (ex.: Cédula de Crédito Bancário, confissão de dívida, cheque etc.).\n   - Número do documento, data de emissão, valor original e principais condições, se constarem.\n   - Se houve renegociação ou confissão posterior, descreva.\n\n3. Valores:\n   - Informe o valor executado na inicial (valor e data da atualização).\n   - Se a petição mencionar juros, multa, comissão de permanência, encargos, descreva brevemente.\n\n4. Garantias:\n   - Quais garantias são invocadas? (penhor, hipoteca, aval, fiança, alienação fiduciária, etc.)\n   - Descrever sucintamente o bem ou obrigação garantida, se constar.\n\n5. Pedidos:\n   - Liste, em bullets, os pedidos formulados na inicial (ex.: citação, penhora, BACENJUD, RENAJUD, custas, honorários).\n\nRegras:\n- Seja detalhado: prefira pecar pelo excesso de informação do que pela falta.\n- Use entre 3 e 8 parágrafos, além de bullets para os pedidos.\n- Não invente fatos; se algo não constar, simplesmente não mencione ou indique \"Não informado\".\n- Comece com o título \"## Resumo da Petição Inicial\" em Markdown.\n"

/-- `main.py` tasks entry `penhora`: the instruction template, verbatim. -/
def instr_penhora : String := "\nVocê é um assistente jurídico especialista em EXECUÇÃO.\n\nAqui você deve focar especificamente nas **buscas de bens e garantias**.\n\nCom base EXCLUSIVAMENTE no texto abaixo, faça uma seção chamada\n\"## Tentativas de Penhora Online e Garantias\" contendo:\n\n1. Sistemas de busca de bens:\n   Para cada sistema listado abaixo, indique com o máximo de detalhes:\n   - se há pedido,\n   - se há decisão deferindo/indeferindo,\n   - se houve efetiva realização (cumprimento) e resultado,\n   - datas, valores e menção a folhas/páginas, se houver.\n\n   Sistemas:\n   - RENAJUD\n   - SISBAJUD/BACENJUD\n   - INFOJUD\n   - SERASAJUD\n   - outros (ex.: pesquisas em cartórios, CCS, SIEL, etc.)\n\n2. Garantias e constrições:\n   - penhora de bens móveis (descrição do bem, valor da avaliação se constar, fls.)\n   - penhora de imóveis (nº da matrícula, cartório, descrição básica, fls.)\n   - arrestos, sequestros, indisponibilidades\n   - registro de penhora em matrícula de imóvel\n   - qualquer outra medida cautelar sobre bens.\n\n3. Se NÃO encontrar qualquer menção a determinado sistema,\n   NÃO afirme que não houve no processo inteiro.\n   Em vez disso, escreva algo como:\n   \"Não há informação nos trechos analisados sobre utilização de [NOME DO SISTEMA].\"\n\nRegras:\n- Liste cada medida em bullets, com datas e valores sempre que aparecerem.\n- Não invente informação nem conclua negativamente sobre o processo todo; limite-se aos trechos analisados.\n"

/-- `main.py` tasks entry `valores_planilhas`: the instruction template, verbatim. -/
def instr_valores_planilhas : String := "\nVocê é um assistente jurídico especialista em EXECUÇÃO.\n\nSua tarefa aqui é **minerar todos os valores e planilhas** que apareçam no texto.\n\nCrie uma seção \"## Valores e Planilhas de Débito\" contendo:\n\n1. Valor original da operação:\n   - Liste TODO valor que pareça ser o valor original do contrato/operação, com data e documento associado.\n\n2. Valor executado na inicial:\n   - Liste o(s) valor(es) indicado(s) como débito executado, com datas de atualização\n     e referência a planilhas (ex.: \"conforme planilha de fls. 573\").\n\n3. Planilhas de cálculo / demonstrativos:\n   - Para CADA planilha ou demonstrativo localizado no texto, liste:\n     • Data de referência da atualização (se constar)  \n     • Valor total atualizado  \n     • Referência de folha/página (fls.) ou descrição do documento  \n   - Se localizar planilhas em anos diferentes (ex.: 2016, 2019, 2023), deixe claro em ordem cronológica.\n\n4. Evolução dos valores:\n   - Se localizar mais de uma planilha, faça um quadro em Markdown\n     mostrando a evolução temporal, neste formato:\n\n     | Data de Referência | Valor Atualizado | Observação |\n     | :----------------- | :-------------- | :--------- |\n     | dd/mm/aaaa         | R$ X            | Ex.: \"planilha inicial\" |\n     | dd/mm/aaaa         | R$ Y            | Ex.: \"planilha posterior\" |\n\n   - Se encontrar apenas **uma** planilha, ainda assim crie a tabela com uma única linha.\n\n5. Bloqueios via SISBAJUD/BACENJUD:\n   - Se houver bloqueios efetivos (não só pedido), liste:\n     • data do bloqueio  \n     • valor bloqueado  \n     • conta/titular, se constar  \n     • desfecho (ex.: convertido em penhora, desbloqueado etc.), se houver.\n\nRegras importantes:\n- Varra o texto com atenção a qualquer \"R$\" e datas, correlacionando com contexto (inicial, planilha, bloqueio).\n- NÃO invente valores ou datas.\n- Se não encontrar alguma parte (ex.: planilhas posteriores), escreva explicitamente:\n  \"Não foram localizadas planilhas posteriores nos trechos analisados.\"\n"

/-- `main.py` tasks entry `movimentacoes`: the instruction template, verbatim. -/
def instr_movimentacoes : String := "\nVocê é um assistente jurídico especialista em EXECUÇÃO.\n\nAgora você vai montar uma **linha do tempo detalhada**.\n\nCrie uma seção \"## Movimentações Processuais Relevantes\" contendo uma linha por ato relevante,\nNO MÍNIMO para:\n\n- distribuição da ação\n- citação\n- apresentação de embargos, exceções, incidentes (falsidade, desconsideração etc.)\n- decisões de mérito ou relevantes (deferimentos, indeferimentos, extinções, suspensões)\n- juntada de planilhas de débito, laudos, perícias\n- decisões sobre prescrição/prescrição intercorrente\n- decisões sobre SISBAJUD/RENAJUD/INFOJUD etc.\n- sentenças e decisões de instâncias superiores\n- principais atos entre 2018 e 2025 (se houver).\n\nFormato:\n\n• dd/mm/aaaa (ou ano aproximado, se for o caso): descrição objetiva do ato, mencionando fls. quando constar.\n\nRegras:\n- PREFIRA listar muitos atos a poucos. Se houver muita movimentação, foque nas relevantes para:\n  valor do crédito, garantias, prosseguimento/suspensão/extinção da execução.\n- Se a data exata não constar, use algo como \"2008 (data não informada): ...\".\n- Não faça comentários jurídicos aqui; apenas descreva os atos.\n"

/-- `main.py` tasks entry `analise_juridica`: the instruction template, verbatim. -/
def instr_analise_juridica : String := "\nVocê é um assistente jurídico especialista em EXECUÇÃO.\n\nAgora você deve organizar uma **visão consolidada**, em bullets, baseada APENAS no que consta no texto.\n\nCrie a seção \"## Análise Jurídica\" com os seguintes itens (mantendo a ordem exata abaixo),\nsempre preenchendo cada linha com alguma informação ou, se nada constar, escrevendo \"Não informado\":\n\n• Exequente: (dados completos disponíveis)  \n• Advogados do Exequente: (nomes e OAB, se constarem)  \n• Executados: (dados completos disponíveis)  \n• Advogados dos Executados: (nomes e OAB)  \n• Fiadores, Avalistas ou Terceiros Garantidores: (se houver, descrever função)  \n• Assinatura de Documentos: (quem assinou cada documento relevante: contrato, confissão de dívida, procurações)  \n• Citação e Intimação: (como ocorreu, quem foi citado, quando, se houve problemas)  \n• Validade das Citações: (se há notícia de nulidade, ou se nada constar → \"Não informado\")  \n• Bens Móveis em Garantia: (descrição dos bens; se não constar → \"Não informado\")  \n• Penhora/Arresto: (se houve, sobre quais bens, valores envolvidos, datas principais)  \n• Registro da Penhora: (se houve registro em matrícula; se nada constar → \"Não informado\")  \n• Outras Penhoras: (em outros processos, se o texto mencionar)  \n• Planilha de Cálculo: (resumir, em 1–3 linhas, a última planilha encontrada: data e valor)  \n• Impugnação aos Cálculos: (se houve; se não constar, dizer \"Não informado\")  \n• Homologação do Valor: (se houve decisão homologando o valor, mencionar data; senão, \"Não informado\")  \n• Avaliação de Bens: (se houve pedido/realização, mencionar bens, datas e valores; senão, \"Não informado\")  \n• Leilão: (se houve designação, realização ou cancelamento; senão, \"Não informado\")  \n• Manifestação de Terceiros: (se houve embargos de terceiro ou outras intervenções)  \n• Exceção de Pré-Executividade: (se houve; se não constar, \"Não informado\")  \n• Embargos à Execução: (se houve, situação atual; se não constar, \"Não informado\")  \n• Incidentes Processuais Relevantes: (ex.: incidente de falsidade, fraude, nulidade, desconsideração; descrever em 2–5 linhas)  \n• Bloqueios e buscas de bens: (resumo do que foi efetivamente feito em SISBAJUD, RENAJUD, INFOJUD etc.; se nada constar, \"Não informado\")  \n• Prescrição / Prescrição intercorrente: (se há decisão reconhecendo, indeferindo ou risco apontado; ou \"Não informado\")  \n• Paralisação do Processo: (períodos longos sem movimentação relevantes, com anos aproximados; ou \"Não informado\").\n\nRegras:\n- Seja o mais factual e detalhado possível, sem emitir opiniões jurídicas, recomendações ou juízos de valor.\n- Se não encontrar nada sobre um item, escreva exatamente \"Não informado\".\n- Não resuma demais: se houver muita informação relevante, distribua em frases curtas dentro do mesmo bullet.\n"

/-- One entry of `main.py`'s `tasks` list (lines 421-665). -/
structure AgentTask where
  key : String
  title : String
  instruction : String

/-- `main.py` 421-665: the six fixed section tasks, in source order. -/
def tasks : List AgentTask :=
  [ ⟨ "cabecalho", "Cabeçalho", instr_cabecalho ⟩,
    ⟨ "resumo_inicial", "Resumo da Petição Inicial", instr_resumo_inicial ⟩,
    ⟨ "penhora", "Tentativas de Penhora Online e Garantias", instr_penhora ⟩,
    ⟨ "valores_planilhas", "Valores e Planilhas de Débito", instr_valores_planilhas ⟩,
    ⟨ "movimentacoes", "Movimentações Processuais Relevantes", instr_movimentacoes ⟩,
    ⟨ "analise_juridica", "Análise Jurídica", instr_analise_juridica ⟩ ]

/-- `main.py` 669-674: the prompt assembled for one task. -/
def mkPrompt (t : AgentTask) (baseText : List Char) : List Char :=
  "\n".data ++ t.instruction.data
    ++ "\n\n=== TEXTO DO PROCESSO (EXTRAÍDO DO PDF) ===\n\n\"\"\"".data
    ++ baseText ++ "\"\"\"".data

/-- `main.py` 667-678: the per-task loop.  The model call is a function
returning `Except` (an exception from `generate_content` is `Except.error`,
and then the loop — and the whole request — aborts: the source has no
`try` around the call).  Returns the sections assoc list (in task order,
each value `(resp.text or "").strip()`) or the propagated error, together
with the list of prompts actually sent. -/
def runSectionsAux (llm : List Char → Except Unit (List Char)) (baseText : List Char) :
    List AgentTask → Except Unit (List (String × List Char)) × List (List Char)
  | [] => (Except.ok [], [])
  | t :: rest =>
    let prompt := mkPrompt t baseText
    match llm prompt with
    | Except.error e => (Except.error e, [prompt])
    | Except.ok txt =>
      let r := runSectionsAux llm baseText rest
      (r.1.map (fun l => (t.key, pyStrip txt) :: l), prompt :: r.2)

/-- Python `sections.get(key, "")`. -/
def sectionsGet (sections : List (String × List Char)) (key : String) : List Char :=
  (((sections.find? (fun p => p.1 = key)).map Prod.snd).getD [])

/-- `main.py` 696: `next(t["title"] for t in tasks if t["key"] == key)`. -/
def titleFor (key : String) : String :=
  (((tasks.find? (fun t => t.key = key)).map AgentTask.title).getD "")

/-- `main.py` 684-691: the fixed reassembly order. -/
def sectionOrder : List String :=
  [ "cabecalho", "resumo_inicial", "penhora", "valores_planilhas",
    "movimentacoes", "analise_juridica" ]

/-- `main.py` 693-699: the markdown block emitted for one key. -/
def sectionBlock (sections : List (String × List Char)) (key : String) : List Char :=
  let s := pyStrip (sectionsGet sections key)
  if s = [] then "## ".data ++ (titleFor key).data ++ "\n\nNão informado.".data else s

/-- `main.py` 682: the banner line prepended to the report. -/
def mkBanner (caseNumber actionType : List Char) : List Char :=
  "Sumarização da ".data ++ actionType ++ " (".data ++ caseNumber ++ ")\n".data

/-- `main.py` 680-701: reassembling the final markdown from the sections. -/
def assembleFinalMd (sections : List (String × List Char))
    (caseNumber actionType : List Char) : List Char :=
  List.intercalate "\n\n".data
    (mkBanner caseNumber actionType :: sectionOrder.map (sectionBlock sections))

/-- How `_run_execucao_agents` can fail: `RuntimeError("Modelo Gemini não
está configurado...")` when `text_model` is `None` (line 418-419), or a
propagated model-call exception. -/
inductive RunErr where
  | modelNotConfigured : RunErr
  | llmError : RunErr
deriving DecidableEq

/-- `main.py` 408-702, `_run_execucao_agents`: `textModel` stands for the
module global `text_model` (`none` = not configured).  Returns
`(final_md, sections)` or the raised error, paired with the trace of
prompts sent to the model. -/
def run_execucao_agents (textModel : Option (List Char → Except Unit (List Char)))
    (baseText caseNumber actionType : List Char) :
    Except RunErr (List Char × List (String × List Char)) × List (List Char) :=
  match textModel with
  | none => (Except.error RunErr.modelNotConfigured, [])
  | some llm =>
    match runSectionsAux llm baseText tasks with
    | (Except.error _, ps) => (Except.error RunErr.llmError, ps)
    | (Except.ok sections, ps) =>
      (Except.ok (assembleFinalMd sections caseNumber actionType, sections), ps)

/-- How the `/summarize` handler can fail (`main.py` 709-781): the explicit
`HTTPException(500, "Gemini não configurado na API (.env)")` before any
extraction, or the generic 500 produced when `_run_execucao_agents`
raises. -/
inductive SummErr where
  | geminiNotConfigured : SummErr
  | agentError : SummErr
deriving DecidableEq

/-- `main.py` 748-749: the fallback text substituted for an empty
extraction. -/
def apologyText : List Char :=
  "Não foi possível extrair texto do PDF. Verifique o arquivo.".data

/-- `main.py` 709-781, `summarize`, its pure core after the job lookup:
check the Gemini configuration, extract (hotspots + global sampling),
replace a falsy `base_text` by the fixed apology message, run the section
agents, and return `(final_md, sections, meta["planilha_pages"])`.  The
trace of model prompts is carried alongside. -/
def summarize (textModel : Option (List Char → Except Unit (List Char)))
    (textByPage : List (List Char)) (tablesByPage : List (List PyTable))
    (envMax : Nat) (caseNumber actionType : List Char) :
    Except SummErr ((List Char × List (String × List Char)) × List Nat) × List (List Char) :=
  match textModel with
  | none => (Except.error SummErr.geminiNotConfigured, [])
  | some llm =>
    let ext := extract_text_from_pdf textByPage tablesByPage envMax
    let baseText := if ext.1 = [] then apologyText else ext.1
    match run_execucao_agents (some llm) baseText caseNumber actionType with
    | (Except.error _, ps) => (Except.error SummErr.agentError, ps)
    | (Except.ok r, ps) => (Except.ok (r, ext.2), ps)

/-! ### Claim-side definitions

The definitions below follow the wording of the specification's claims (not
the source); the theorems compare them with the source embeddings above. -/

/-- The four-zone sample exactly as claim C6 words it: the first `part`
characters; `part` characters centered on the document midpoint, clipped to
`[0, total_len]`; `part` characters starting at `total_len - 2*part`
clipped to `≥ 0`; and the last `part` characters — joined, in that fixed
order, by the three labeled separators. -/
def claimGlobalSample (fullText : List Char) (maxChars : Nat) : List Char :=
  let totalLen := fullText.length
  let part0 := maxChars / 4
  let part := if part0 = 0 then maxChars else part0
  let startZone := fullText.take part
  let midStart := totalLen / 2 - part / 2
  let midZone := (fullText.drop midStart).take (min totalLen (midStart + part) - midStart)
  let preEndZone := (fullText.drop (totalLen - 2 * part)).take part
  let endZone := fullText.drop (totalLen - part)
  startZone ++ sepCentral ++ midZone ++ sepPreFinal ++ preEndZone ++ sepFinal ++ endZone

/-- The markdown block claims C2 and C8 predict for one section, built from
that section's raw model response alone: the trimmed response, or the fixed
`"## <Title>\n\nNão informado."` placeholder when it trims to nothing. -/
def claimSectionBlock (t : AgentTask) (resp : List Char) : List Char :=
  if pyStrip resp = [] then "## ".data ++ t.title.data ++ "\n\nNão informado.".data
  else pyStrip resp

/-- The sections map produced by a run whose model call always succeeds:
one entry per task, in task order, holding the trimmed response. -/
def secsOf (llm : List Char → List Char) (baseText : List Char) : List (String × List Char) :=
  tasks.map (fun t => (t.key, pyStrip (llm (mkPrompt t baseText))))

set_option maxRecDepth 10000

/-! ### Helper lemmas -/

/-- `pyStrip` written with `List.rdropWhile`. -/
theorem pyStrip_eq (s : List Char) :
    pyStrip s = List.rdropWhile pyWhitespace (List.dropWhile pyWhitespace s) := by
  simp [pyStrip, List.rdropWhile]

/-- A list already stripped on the left stays so after a right strip. -/
theorem dropWhile_rdropWhile (p : Char → Bool) (l : List Char)
    (h : List.dropWhile p l = l) :
    List.dropWhile p (List.rdropWhile p l) = List.rdropWhile p l := by
  rcases hr : List.rdropWhile p l with _ | ⟨x, xs⟩
  · simp
  · rw [List.dropWhile_eq_self_iff]
    intro hl
    obtain ⟨u, hu⟩ := (List.rdropWhile_prefix p l)
    rw [hr] at hu
    have hx : l.head? = some x := by
      rw [← hu]
      simp
    rw [List.dropWhile_eq_self_iff] at h
    intro hp
    rcases l with _ | ⟨y, ys⟩
    · simp at hx
    · simp at hx
      have hnp := h (by simp)
      simp [List.get] at hnp
      simp [List.get] at hp
      rw [← hx] at hp
      simp [hp] at hnp

/-- Python's `strip()` is idempotent. -/
theorem pyStrip_idem (s : List Char) : pyStrip (pyStrip s) = pyStrip s := by
  rw [pyStrip_eq s, pyStrip_eq]
  rw [dropWhile_rdropWhile pyWhitespace (List.dropWhile pyWhitespace s)
    (List.dropWhile_idempotent pyWhitespace s)]
  exact List.rdropWhile_idempotent pyWhitespace (List.dropWhile pyWhitespace s)

/-- A run whose model call always succeeds returns the assembled report over
the per-task trimmed responses, and sends exactly one prompt per task. -/
theorem run_agents_ok (llm : List Char → List Char) (b c a : List Char) :
    run_execucao_agents (some (fun p => Except.ok (llm p))) b c a =
      (Except.ok (assembleFinalMd (secsOf llm b) c a, secsOf llm b),
        tasks.map (fun t => mkPrompt t b)) := by
  rfl

/-- The hotspot loop yields nothing when no page has a keyword. -/
theorem hotspotAux_no_match (tablesByPage : List (List PyTable)) (k : Nat)
    (pages : List (List Char)) (h : ∀ p ∈ pages, pageHasKeyword p = false) :
    hotspotAux tablesByPage k pages = ([], []) := by
  induction pages generalizing k with
  | nil => rfl
  | cons p rest ih =>
    have hp : pageHasKeyword p = false := h p (List.mem_cons_self p rest)
    have hr := ih (k + 1) (fun q hq => h q (List.mem_cons_of_mem p hq))
    simp [hotspotAux, hp, hr]

/-- Membership in the page-detection loop's output, relative to the running
start index. -/
theorem detectAux_mem (pages : List (List Char)) (k n : Nat) :
    n ∈ detectPlanilhaAux k pages ↔
      ∃ i, ∃ h : i < pages.length,
        n = k + i + 1 ∧ pageHasKeyword (pages.get ⟨i, h⟩) = true := by
  induction pages generalizing k with
  | nil => simp [detectPlanilhaAux]
  | cons p rest ih =>
    by_cases hp : pageHasKeyword p
    · simp only [detectPlanilhaAux, if_pos hp, List.mem_cons, ih (k + 1)]
      constructor
      · rintro (rfl | ⟨i, hi, rfl, hkey⟩)
        · exact ⟨0, by simp, by omega, by simpa using hp⟩
        · exact ⟨i + 1, by simpa using hi, by omega, by simpa using hkey⟩
      · rintro ⟨i, hi, rfl, hkey⟩
        cases i with
        | zero => left; omega
        | succ j =>
          right
          exact ⟨j, by simpa using hi, by omega, by simpa using hkey⟩
    · simp only [detectPlanilhaAux, if_neg hp, ih (k + 1)]
      constructor
      · rintro ⟨i, hi, rfl, hkey⟩
        exact ⟨i + 1, by simpa using hi, by omega, by simpa using hkey⟩
      · rintro ⟨i, hi, rfl, hkey⟩
        cases i with
        | zero =>
          simp only [List.get] at hkey
          exact absurd hkey (by simpa using hp)
        | succ j =>
          exact ⟨j, by simpa using hi, by omega, by simpa using hkey⟩

/-- Every page number the detection loop emits exceeds its start index. -/
theorem detectAux_gt (pages : List (List Char)) (k : Nat) :
    ∀ n ∈ detectPlanilhaAux k pages, k < n := by
  intro n hn
  rw [detectAux_mem] at hn
  obtain ⟨i, hi, rfl, _⟩ := hn
  omega

/-- The detection loop's output is strictly ascending. -/
theorem detectAux_sorted (pages : List (List Char)) (k : Nat) :
    List.Sorted (· < ·) (detectPlanilhaAux k pages) := by
  induction pages generalizing k with
  | nil => simp [detectPlanilhaAux]
  | cons p rest ih =>
    by_cases hp : pageHasKeyword p
    · simp only [detectPlanilhaAux, if_pos hp]
      refine List.sorted_cons.mpr ⟨?_, ih (k + 1)⟩
      intro b hb
      have := detectAux_gt rest (k + 1) b hb
      omega
    · simp only [detectPlanilhaAux, if_neg hp]
      exact ih (k + 1)

/-! ### The claims -/

/-- C1: the claim says the assembled context returned by
`_extract_text_from_pdf` never exceeds `max_chars = min(MAX_PDF_CHARS,
HARD_CAP_CHARS)`, separators included.  The code violates it: with
`MAX_PDF_CHARS = 8` and a single keyword-free 9-character page, the
effective budget is `min 8 80000 = 8` yet the function returns 122
characters — the three global-sample separators are written on top of the
budget, with no defensive truncation anywhere. -/
theorem extract_text_hard_cap_violated :
    (extract_text_from_pdf ["abcdefghi".data] [] 8).1.length = 122 ∧
    ¬ ((extract_text_from_pdf ["abcdefghi".data] [] 8).1.length ≤ min 8 HARD_CAP_CHARS) := by
  decide

/-- C2 counterexample: with a blank (empty) context the orchestrator still
makes six model calls — one per section — not zero as the claim states
(there is no empty-context skip in `_run_execucao_agents`). -/
theorem run_agents_blank_context_still_calls :
    (run_execucao_agents (some (fun _ => Except.ok [])) [] [] []).2.length = 6 ∧
    (run_execucao_agents (some (fun _ => Except.ok [])) [] [] []).2.length ≠ 0 := by
  constructor
  · rfl
  · intro hc
    exact absurd hc (by decide)

/-- C2 amended: the placeholder `"## <Title>\n\nNão informado."` is emitted
for every section whose model response trims to nothing (here: all six, the
model returning only blank text on the blank context), but the orchestrator
still sends one prompt per section — blank context does not skip the call. -/
theorem run_agents_blank_placeholder_but_calls (caseNumber actionType : List Char) :
    (run_execucao_agents (some (fun _ => Except.ok [])) [] caseNumber actionType).2.length = 6 ∧
    (run_execucao_agents (some (fun _ => Except.ok [])) [] caseNumber actionType).1 =
      Except.ok
        ( mkBanner caseNumber actionType ++ "\n\n## Cabeçalho\n\nNão informado.\n\n## Resumo da Petição Inicial\n\nNão informado.\n\n## Tentativas de Penhora Online e Garantias\n\nNão informado.\n\n## Valores e Planilhas de Débito\n\nNão informado.\n\n## Movimentações Processuais Relevantes\n\nNão informado.\n\n## Análise Jurídica\n\nNão informado.".data,
          [("cabecalho", []), ("resumo_inicial", []), ("penhora", []),
           ("valores_planilhas", []), ("movimentacoes", []), ("analise_juridica", [])] ) := by
  constructor
  · rfl
  · rfl

/-- C3 counterexample: there is no retry, no backoff and no reduced-context
fallback — when the model call fails, exactly one call was made in total,
no placeholder is produced, and the error aborts all six sections (the
whole run returns an error instead of a report). -/
theorem run_agents_llm_failure_aborts_all :
    (run_execucao_agents (some (fun _ => Except.error ())) "x".data [] []).1 =
      Except.error RunErr.llmError ∧
    (run_execucao_agents (some (fun _ => Except.error ())) "x".data [] []).2.length = 1 :=
  ⟨ rfl, rfl ⟩

/-- C3 amended: each section gets exactly one model call, with no retry and
no 20,000-character fallback; if the first section's call raises, the
exception propagates out of `_run_execucao_agents` at once — the prompt
trace holds only that one prompt and the remaining five sections are
aborted, no placeholder substituted. -/
theorem run_agents_one_call_no_retry_error_propagates
    (llm : List Char → Except Unit (List Char)) (baseText caseNumber actionType : List Char)
    (h : llm (mkPrompt ⟨ "cabecalho", "Cabeçalho", instr_cabecalho ⟩ baseText) =
      Except.error ()) :
    run_execucao_agents (some llm) baseText caseNumber actionType =
      (Except.error RunErr.llmError,
        [mkPrompt ⟨ "cabecalho", "Cabeçalho", instr_cabecalho ⟩ baseText]) := by
  have hrun : runSectionsAux llm baseText tasks =
      (Except.error (),
        [mkPrompt ⟨ "cabecalho", "Cabeçalho", instr_cabecalho ⟩ baseText]) := by
    simp [tasks, runSectionsAux, h]
  simp only [run_execucao_agents, hrun]

/-- Witness for C3's amended theorem at an always-failing model. -/
theorem run_agents_one_call_no_retry_error_propagates_witness :
    run_execucao_agents (some (fun _ => Except.error ())) "x".data "1".data "2".data =
      (Except.error RunErr.llmError,
        [mkPrompt ⟨ "cabecalho", "Cabeçalho", instr_cabecalho ⟩ "x".data]) :=
  run_agents_one_call_no_retry_error_propagates
    (fun _ => Except.error ()) "x".data "1".data "2".data rfl

/-- C4 counterexample: `_detect_planilha_pages` has no `max_pages` cap — on
13 pages that all contain the keyword "planilha" it returns 13 page
numbers, exceeding the claimed fixed cap of 12. -/
theorem detect_planilha_pages_no_cap :
    (detect_planilha_pages (List.replicate 13 "planilha".data)).length = 13 ∧
    ¬ ((detect_planilha_pages (List.replicate 13 "planilha".data)).length ≤ 12) := by
  decide

/-- C4 amended: relevant-page detection is a pure function of the page
texts whose output is strictly ascending and contains a 1-based page number
`n` exactly when page `n`'s lowercased text contains some keyword as a
substring — but it is uncapped: every matching page is returned, however
many there are. -/
theorem detect_planilha_pages_ascending_iff_keyword (textByPage : List (List Char)) :
    List.Sorted (· < ·) (detect_planilha_pages textByPage) ∧
    ∀ n : Nat, n ∈ detect_planilha_pages textByPage ↔
      ∃ i, ∃ h : i < textByPage.length,
        n = i + 1 ∧ pageHasKeyword (textByPage.get ⟨i, h⟩) = true := by
  constructor
  · exact detectAux_sorted textByPage 0
  · intro n
    rw [detect_planilha_pages, detectAux_mem]
    constructor
    · rintro ⟨i, hi, rfl, hkey⟩
      exact ⟨i, hi, by omega, hkey⟩
    · rintro ⟨i, hi, rfl, hkey⟩
      exact ⟨i, hi, by omega, hkey⟩

/-- C5: whenever the whole text fits the budget, `_build_global_sample`
returns it unchanged — characters and length identical. -/
theorem build_global_sample_identity (fullText : List Char) (maxChars : Nat)
    (h : fullText.length ≤ maxChars) :
    build_global_sample fullText maxChars = fullText := by
  unfold build_global_sample
  simp [h]

/-- Witness for C5 at a concrete fitting input. -/
theorem build_global_sample_identity_witness :
    "abc".data.length ≤ 5 ∧ build_global_sample "abc".data 5 = "abc".data :=
  ⟨ by decide, build_global_sample_identity "abc".data 5 (by decide) ⟩

/-- C6 counterexample: at `max_chars = 0` (so `part = 0`) the claim's "last
`part` characters" is empty, but Python's `full_text[-part:]` is `full_text[-0:]`,
the whole text — `_build_global_sample "ab" 0` ends in `"ab"`, not in the
empty end zone the claim predicts. -/
theorem build_global_sample_zero_budget_end_zone :
    build_global_sample "ab".data 0 ≠ claimGlobalSample "ab".data 0 := by
  decide

/-- C6 amended: for every text longer than the budget and every
`max_chars ≥ 1`, the output is exactly the claim's four zones — first
`part` characters, `part` characters centered on the midpoint clipped to
the text, `part` characters from `total_len - 2*part` clipped to `≥ 0`,
and the last `part` characters — joined by the three labeled separators in
the fixed order start, middle, pre-end, end.  (Only the `max_chars = 0`
case deviates, by the Python `[-0:]` slice.) -/
theorem build_global_sample_four_zones (fullText : List Char) (maxChars : Nat)
    (h1 : 1 ≤ maxChars) (h2 : maxChars < fullText.length) :
    build_global_sample fullText maxChars = claimGlobalSample fullText maxChars := by
  have hlen : ¬ (fullText.length ≤ maxChars) := by omega
  unfold build_global_sample claimGlobalSample
  simp only [if_neg hlen]
  have hple : (if maxChars / 4 = 0 then maxChars else maxChars / 4) ≤ maxChars := by
    split <;> omega
  have hpos : (if maxChars / 4 = 0 then maxChars else maxChars / 4) ≠ 0 := by
    split
    · omega
    · next h => exact h
  set part := if maxChars / 4 = 0 then maxChars else maxChars / 4 with hp
  have hplt : part < fullText.length := by omega
  have hnoclip : ¬ (fullText.length < fullText.length - part * 2 + part) := by omega
  simp only [if_neg hnoclip, if_neg hpos]
  have harith : fullText.length - part * 2 + part - (fullText.length - part * 2) = part := by
    omega
  rw [harith]
  have h2p : fullText.length - part * 2 = fullText.length - 2 * part := by ring_nf
  rw [h2p]

/-- Witness for C6's amended theorem at a concrete truncating input. -/
theorem build_global_sample_four_zones_witness :
    (1 ≤ 4 ∧ 4 < "abcdefghi".data.length) ∧
    build_global_sample "abcdefghi".data 4 = claimGlobalSample "abcdefghi".data 4 :=
  ⟨ by decide, build_global_sample_four_zones "abcdefghi".data 4 (by decide) (by decide) ⟩

/-- C7: when the document text exceeds the budget and no page matches any
keyword, `_extract_text_from_pdf` returns the pure global sample of the
whole text at the full budget `min envMax HARD_CAP_CHARS` (not a reduced
amount) and an empty relevant-page list. -/
theorem extract_no_hotspots_full_budget (textByPage : List (List Char))
    (tablesByPage : List (List PyTable)) (envMax : Nat)
    (h1 : min envMax HARD_CAP_CHARS < (fullTextOf textByPage).length)
    (h2 : ∀ p ∈ textByPage, pageHasKeyword p = false) :
    extract_text_from_pdf textByPage tablesByPage envMax =
      (build_global_sample (fullTextOf textByPage) (min envMax HARD_CAP_CHARS), []) := by
  have h0 : ¬ ((fullTextOf textByPage).length = 0) := by omega
  have hfit : ¬ ((fullTextOf textByPage).length ≤ min envMax HARD_CAP_CHARS) := by omega
  unfold extract_text_from_pdf
  rw [hotspotAux_no_match tablesByPage 0 textByPage h2]
  simp [h0, hfit, pyStrip]

/-- Witness for C7 at a one-page keyword-free document over the budget. -/
theorem extract_no_hotspots_full_budget_witness :
    (min 1 HARD_CAP_CHARS < (fullTextOf ["zz".data]).length) ∧
    extract_text_from_pdf ["zz".data] [] 1 =
      (build_global_sample (fullTextOf ["zz".data]) (min 1 HARD_CAP_CHARS), []) :=
  ⟨ by decide,
    extract_no_hotspots_full_budget ["zz".data] [] 1 (by decide) (by decide) ⟩

/-- C8: for every model behaviour (every total response function), the run
succeeds and returns, alongside the raw per-section map, a markdown whose
first line is the banner naming the action type and case number, followed
by the six section blocks in the fixed order [cabecalho, resumo_inicial,
penhora, valores_planilhas, movimentacoes, analise_juridica], each block
being the section's trimmed response or the fixed
`"## <Title>\n\nNão informado."` placeholder when that response is blank. -/
theorem run_agents_fixed_order_report (llm : List Char → List Char)
    (baseText caseNumber actionType : List Char) :
    run_execucao_agents (some (fun p => Except.ok (llm p))) baseText caseNumber actionType =
      (Except.ok
        ( List.intercalate "\n\n".data
            (mkBanner caseNumber actionType
              :: tasks.map (fun t => claimSectionBlock t (llm (mkPrompt t baseText)))),
          tasks.map (fun t => (t.key, pyStrip (llm (mkPrompt t baseText)))) ),
        tasks.map (fun t => mkPrompt t baseText)) := by
  rw [run_agents_ok]
  simp [assembleFinalMd, secsOf, sectionOrder, sectionBlock, sectionsGet, titleFor,
    tasks, claimSectionBlock, pyStrip_idem]

/-- C9 counterexample: a readable one-page document with zero extractable
characters is not surfaced as a distinct failure — the pipeline substitutes
the fixed apology message, makes all six model calls and returns a
successful report. -/
theorem summarize_empty_pdf_treated_as_success :
    (summarize (some (fun _ => Except.ok "resp".data)) [[]] [] 30000 [] []).2.length = 6 ∧
    (summarize (some (fun _ => Except.ok "resp".data)) [[]] [] 30000 [] []).1.isOk = true :=
  ⟨ rfl, rfl ⟩

/-- C9 amended: whenever extraction yields the empty string, `summarize`
replaces it by the fixed apology text and proceeds as an ordinary
successful run: one prompt per section built over the apology text, the
report assembled from the responses, and the extraction metadata passed
through — no `NoExtractableText`-style failure exists in the code. -/
theorem summarize_empty_extraction_proceeds (llm : List Char → List Char)
    (textByPage : List (List Char)) (tablesByPage : List (List PyTable))
    (envMax : Nat) (caseNumber actionType : List Char)
    (h : (extract_text_from_pdf textByPage tablesByPage envMax).1 = []) :
    summarize (some (fun p => Except.ok (llm p))) textByPage tablesByPage envMax
        caseNumber actionType =
      ( Except.ok
          ( (assembleFinalMd (secsOf llm apologyText) caseNumber actionType,
              secsOf llm apologyText),
            (extract_text_from_pdf textByPage tablesByPage envMax).2 ),
        tasks.map (fun t => mkPrompt t apologyText) ) := by
  simp only [summarize]
  rw [h]
  simp only [if_pos rfl]
  rw [run_agents_ok]
  simp

/-- Witness for C9's amended theorem on an all-empty one-page document. -/
theorem summarize_empty_extraction_proceeds_witness :
    summarize (some (fun _ => Except.ok "x".data)) [[]] [] 30000 [] [] =
      ( Except.ok
          ( (assembleFinalMd (secsOf (fun _ => "x".data) apologyText) [] [],
              secsOf (fun _ => "x".data) apologyText),
            (extract_text_from_pdf [[]] [] 30000).2 ),
        tasks.map (fun t => mkPrompt t apologyText) ) :=
  summarize_empty_extraction_proceeds (fun _ => "x".data) [[]] [] 30000 [] [] rfl

/-- C10: with no configured model, `_run_execucao_agents` raises its
`RuntimeError` before any model call (the prompt trace is empty) and the
`/summarize` handler rejects the request with its explicit 500 before any
extraction or call — neither produces a report. -/
theorem not_configured_rejected_before_any_call
    (baseText caseNumber actionType : List Char) (textByPage : List (List Char))
    (tablesByPage : List (List PyTable)) (envMax : Nat) (cn act : List Char) :
    run_execucao_agents none baseText caseNumber actionType =
      (Except.error RunErr.modelNotConfigured, []) ∧
    summarize none textByPage tablesByPage envMax cn act =
      (Except.error SummErr.geminiNotConfigured, []) :=
  ⟨ rfl, rfl ⟩

end JusReport
